import Mathlib

/-!
Verification of the technical-indicator engine of the tradepro-scanner
repository (`src/lib/indicators.ts` and the timeframe orchestrator in the
data route).  Numbers are embedded as rationals (`ℚ`); JavaScript numeric
doubles are modelled by exact rational arithmetic.  The `time` field of an
OHLC bar is omitted from the embedding: none of the modelled computations
ever reads it (`convertPricesToOHLC` only writes it).
-/

namespace TradeproScanner

/-- One OHLCV observation.  Models interface `OHLCData` of
`src/lib/indicators.ts` (field `open` is called `open_` because `open` is a
Lean keyword; the `time` string field is omitted, no modelled function reads
it). -/
structure OHLCData where
  open_ : ℚ
  high : ℚ
  low : ℚ
  close : ℚ
  volume : ℚ
deriving DecidableEq, Repr

/-- Trend direction, the `'up' | 'down'` union of the source. -/
inductive Direction where
  | up
  | down
deriving DecidableEq, Repr

/-- Trading signal, the `'buy' | 'sell' | 'hold'` union of the source. -/
inductive Signal where
  | buy
  | sell
  | hold
deriving DecidableEq, Repr

/-- Models interface `SupertrendResult` of `src/lib/indicators.ts`.  Note
that the source stores the *final* (ratcheted) bands in the fields named
`basicUpperBand` / `basicLowerBand` (lines 170-177 of the source). -/
structure SupertrendResult where
  value : ℚ
  direction : Direction
  signal : Signal
  atr : ℚ
  basicUpperBand : ℚ
  basicLowerBand : ℚ
deriving DecidableEq, Repr

/-- Models interface `SupertrendConfig` of `src/lib/indicators.ts`. -/
structure SupertrendConfig where
  atrPeriod : ℕ
  factor : ℚ
deriving DecidableEq, Repr

/-- Structured form of the `Error` values thrown by the source; the thrown
message names the required and the actual bar counts. -/
inductive IndicatorError where
  | insufficientData (required : ℕ) (actual : ℕ)
deriving DecidableEq, Repr

instance : Inhabited SupertrendResult :=
  ⟨⟨0, Direction.up, Signal.hold, 0, 0, 0⟩⟩

instance : Inhabited OHLCData := ⟨⟨0, 0, 0, 0, 0⟩⟩

/-- `calculateTrueRange` of `src/lib/indicators.ts` (lines 32-42): the true
range of a bar given its (optional) predecessor. -/
def calculateTrueRange (current : OHLCData) (previous : Option OHLCData) : ℚ :=
  match previous with
  | none => current.high - current.low
  | some p =>
      max (current.high - current.low)
        (max |current.high - p.close| |current.low - p.close|)

/-- The per-bar true ranges of a sequence (the loop at lines 56-60 of the
source): bar 0 has no predecessor, bar `i+1` has predecessor bar `i`. -/
def trueRanges (ohlcData : List OHLCData) : List ℚ :=
  match ohlcData with
  | [] => []
  | c :: _ =>
      calculateTrueRange c none ::
        List.zipWith (fun prev cur => calculateTrueRange cur (some prev))
          ohlcData ohlcData.tail

/-- Wilder smoothing (lines 71-76 of the source):
`newATR = (previousATR * (period - 1) + currentTR) / period`, one output per
remaining true range. -/
def wilderSmooth (period : ℕ) (previousATR : ℚ) : List ℚ → List ℚ
  | [] => []
  | tr :: rest =>
      let newATR := (previousATR * ((period : ℚ) - 1) + tr) / (period : ℚ)
      newATR :: wilderSmooth period newATR rest

/-- The ATR value list produced by `calculateATR` when the length guard
passes: the seed (simple average of the first `period` true ranges) followed
by the Wilder-smoothed values of the remaining true ranges. -/
def atrSeq (ohlcData : List OHLCData) (period : ℕ) : List ℚ :=
  let trs := trueRanges ohlcData
  let seed := (trs.take period).sum / (period : ℚ)
  seed :: wilderSmooth period seed (trs.drop period)

/-- `calculateATR` of `src/lib/indicators.ts` (lines 47-79).  Throwing is
modelled by `Except.error`. -/
def calculateATR (ohlcData : List OHLCData) (period : ℕ) :
    Except IndicatorError (List ℚ) :=
  if ohlcData.length < period then
    Except.error (IndicatorError.insufficientData period ohlcData.length)
  else
    Except.ok (atrSeq ohlcData period)

/-- `hl2`, the typical price of a bar (line 106 of the source). -/
def hl2 (bar : OHLCData) : ℚ := (bar.high + bar.low) / 2

/-- One iteration of the `calculateSupertrend` loop (lines 100-178 of the
source) for a bar *after* the first eligible bar: basic bands, the band
ratchet rule against the previous result's stored bands, and the five-branch
direction/value/signal chain.  The second component of the returned pair is
`true` exactly when the defensive fallback branch (lines 163-167) is taken;
the loop uses only the first component, so the flag is pure observation. -/
def supertrendStep (factor : ℚ) (previousResult : SupertrendResult)
    (previousClose : ℚ) (current : OHLCData) (currentATR : ℚ) :
    SupertrendResult × Bool :=
  let h := hl2 current
  let basicUpperBand := h + factor * currentATR
  let basicLowerBand := h - factor * currentATR
  let finalUpperBand :=
    if basicUpperBand < previousResult.basicUpperBand ∨
        previousClose > previousResult.basicUpperBand
    then basicUpperBand else previousResult.basicUpperBand
  let finalLowerBand :=
    if basicLowerBand > previousResult.basicLowerBand ∨
        previousClose < previousResult.basicLowerBand
    then basicLowerBand else previousResult.basicLowerBand
  if previousResult.direction = Direction.up ∧ current.close > finalLowerBand then
    (⟨finalLowerBand, Direction.up, Signal.hold, currentATR,
      finalUpperBand, finalLowerBand⟩, false)
  else if previousResult.direction = Direction.up ∧ current.close ≤ finalLowerBand then
    (⟨finalUpperBand, Direction.down, Signal.sell, currentATR,
      finalUpperBand, finalLowerBand⟩, false)
  else if previousResult.direction = Direction.down ∧ current.close < finalUpperBand then
    (⟨finalUpperBand, Direction.down, Signal.hold, currentATR,
      finalUpperBand, finalLowerBand⟩, false)
  else if previousResult.direction = Direction.down ∧ current.close ≥ finalUpperBand then
    (⟨finalLowerBand, Direction.up, Signal.buy, currentATR,
      finalUpperBand, finalLowerBand⟩, false)
  else
    if current.close > h then
      (⟨finalLowerBand, Direction.up, Signal.hold, currentATR,
        finalUpperBand, finalLowerBand⟩, true)
    else
      (⟨finalUpperBand, Direction.down, Signal.hold, currentATR,
        finalUpperBand, finalLowerBand⟩, true)

/-- The first eligible bar of `calculateSupertrend` (the `i === atrPeriod - 1`
case, lines 140-143 of the source): final bands equal basic bands, direction
is `down` when `close ≤ finalLowerBand` and `up` otherwise, signal is `hold`. -/
def supertrendFirst (factor : ℚ) (current : OHLCData) (currentATR : ℚ) :
    SupertrendResult :=
  let h := hl2 current
  let basicUpperBand := h + factor * currentATR
  let basicLowerBand := h - factor * currentATR
  let direction :=
    if current.close ≤ basicLowerBand then Direction.down else Direction.up
  { value := if direction = Direction.up then basicLowerBand else basicUpperBand
    direction := direction
    signal := Signal.hold
    atr := currentATR
    basicUpperBand := basicUpperBand
    basicLowerBand := basicLowerBand }

/-- The tail of the `calculateSupertrend` loop: each output bar is computed
from the previous output result and the previous bar's close (lines 116-118
of the source pass `results[results.length - 1]` and `ohlcData[i - 1].close`). -/
def supertrendLoop (factor : ℚ) :
    SupertrendResult → ℚ → List OHLCData → List ℚ → List SupertrendResult
  | prev, prevClose, c :: cs, a :: as_ =>
      let r := (supertrendStep factor prev prevClose c a).1
      r :: supertrendLoop factor r c.close cs as_
  | _, _, _, _ => []

/-- The whole result list of `calculateSupertrend` once the length guard has
passed: `bars` is the input from index `atrPeriod - 1` onward and `atrs` the
aligned ATR values (`atrIndex = i - (atrPeriod - 1)`, line 102 of the source). -/
def supertrendResults (factor : ℚ) (bars : List OHLCData) (atrs : List ℚ) :
    List SupertrendResult :=
  match bars, atrs with
  | b :: bs, a :: as_ =>
      let first := supertrendFirst factor b a
      first :: supertrendLoop factor first b.close bs as_
  | _, _ => []

/-- `calculateSupertrend` of `src/lib/indicators.ts` (lines 85-181). -/
def calculateSupertrend (ohlcData : List OHLCData) (config : SupertrendConfig) :
    Except IndicatorError (List SupertrendResult) :=
  if ohlcData.length < config.atrPeriod + 1 then
    Except.error
      (IndicatorError.insufficientData (config.atrPeriod + 1) ohlcData.length)
  else
    match calculateATR ohlcData config.atrPeriod with
    | Except.error e => Except.error e
    | Except.ok atrValues =>
        Except.ok
          (supertrendResults config.factor
            (ohlcData.drop (config.atrPeriod - 1)) atrValues)

/-- `getLatestSupertrendSignal` of `src/lib/indicators.ts` (lines 186-194):
the thrown error is caught and turned into `null` (`none`); otherwise the
last result is returned when the result list is non-empty. -/
def getLatestSupertrendSignal (ohlcData : List OHLCData)
    (config : SupertrendConfig) : Option SupertrendResult :=
  match calculateSupertrend ohlcData config with
  | Except.error _ => none
  | Except.ok results => results.getLast?

/-- The input bars from index `atrPeriod - 1` onward: exactly the bars the
`calculateSupertrend` loop visits, so output bar `k` is computed at input
bar `eligibleBars ... k`. -/
def eligibleBars (ohlcData : List OHLCData) (config : SupertrendConfig) :
    List OHLCData :=
  ohlcData.drop (config.atrPeriod - 1)

/-- The result list of `calculateSupertrend`, with a thrown error observed
as the empty list (used to state per-index properties of the output). -/
def supertrendOutput (ohlcData : List OHLCData) (config : SupertrendConfig) :
    List SupertrendResult :=
  (calculateSupertrend ohlcData config).toOption.getD []

/-- `convertPricesToOHLC` of `src/lib/indicators.ts` (lines 199-208).  The
`time` field written by the source (from the optional date list or a derived
calendar date) is not modelled, since no modelled computation reads it. -/
def convertPricesToOHLC (prices : List ℚ) : List OHLCData :=
  prices.map fun price =>
    { open_ := price
      high := price * (101 / 100)
      low := price * (99 / 100)
      close := price
      volume := 1000000 }

/-- `validateOHLCData` of `src/lib/indicators.ts` (lines 213-222). -/
def validateOHLCData (ohlcData : List OHLCData) : Bool :=
  ohlcData.all fun candle =>
    decide (candle.high ≥ candle.low) && decide (candle.high ≥ candle.open_) &&
    decide (candle.high ≥ candle.close) && decide (candle.low ≤ candle.open_) &&
    decide (candle.low ≤ candle.close) && decide (candle.volume ≥ 0)

/-- The six timeframe labels of the orchestrator's fixed table. -/
inductive Timeframe where
  | tf45M
  | tf2H
  | tf4H
  | tf1D
  | tf3D
  | tf1W
deriving DecidableEq, Repr

/-- The fixed `configs` table of `calculateSupertrendForTimeframes`
(lines 462-469 of the data route). -/
def timeframeConfig : Timeframe → SupertrendConfig
  | Timeframe.tf45M => ⟨7, 2⟩
  | Timeframe.tf2H => ⟨8, 5 / 2⟩
  | Timeframe.tf4H => ⟨10, 14 / 5⟩
  | Timeframe.tf1D => ⟨12, 3⟩
  | Timeframe.tf3D => ⟨14, 7 / 2⟩
  | Timeframe.tf1W => ⟨15, 4⟩

/-- The `dataLength` switch of `calculateSupertrendForTimeframes`
(lines 477-485 of the data route), as a function of the master sequence
length. -/
def timeframeWindow (tf : Timeframe) (masterLength : ℕ) : ℕ :=
  match tf with
  | Timeframe.tf45M => min 20 masterLength
  | Timeframe.tf2H => min 25 masterLength
  | Timeframe.tf4H => min 30 masterLength
  | Timeframe.tf1D => min 40 masterLength
  | Timeframe.tf3D => min 50 masterLength
  | Timeframe.tf1W => masterLength

/-- `calculateSupertrendForTimeframes` of the data route (lines 435-508),
per timeframe.  The source first short-circuits to all-`null` when the master
sequence has fewer than 15 bars; otherwise it slices the last `dataLength`
bars (`ohlcData.slice(-dataLength)`, modelled by dropping the leading bars)
and records `getLatestSupertrendSignal` only when the slice has at least
`atrPeriod + 1` bars. -/
def calculateSupertrendForTimeframes (ohlcData : List OHLCData)
    (tf : Timeframe) : Option SupertrendResult :=
  if ohlcData.length < 15 then none
  else
    let config := timeframeConfig tf
    let dataLength := timeframeWindow tf ohlcData.length
    let timeframeData := ohlcData.drop (ohlcData.length - dataLength)
    if config.atrPeriod + 1 ≤ timeframeData.length then
      getLatestSupertrendSignal timeframeData config
    else none

/-! Concrete inputs used by witnesses and counterexamples. -/

/-- A flat bar at price 100. -/
def barFlat100 : OHLCData := ⟨100, 100, 100, 100, 0⟩

/-- A wide-range bar closing at its low. -/
def barSpike : OHLCData := ⟨200, 300, 100, 100, 0⟩

/-- A flat bar at price 140. -/
def barFlat140 : OHLCData := ⟨140, 140, 140, 140, 0⟩

/-- A four-bar sequence whose Supertrend run (period 2, factor 1/2) flips
from `down` to `up` with crossed bands. -/
def crossedBandBars : List OHLCData := [barFlat100, barFlat100, barSpike, barFlat140]

/-- A small Supertrend configuration: ATR period 2, factor 1/2. -/
def configHalf : SupertrendConfig := ⟨2, 1 / 2⟩

/-- A well-formed bar around price 100. -/
def barW1 : OHLCData := ⟨100, 101, 99, 100, 10⟩

/-- A well-formed bar around price 101. -/
def barW2 : OHLCData := ⟨100, 102, 98, 101, 10⟩

/-- A well-formed bar around price 102. -/
def barW3 : OHLCData := ⟨101, 103, 99, 102, 10⟩

/-- Three well-formed bars. -/
def witnessBars : List OHLCData := [barW1, barW2, barW3]

/-- Four identical well-formed bars: the Supertrend output over them is a
run of three consecutive `up` bars. -/
def flatBars4 : List OHLCData := [barW1, barW1, barW1, barW1]

/-- A bar violating the OHLC ordering invariant: its high (90) is below its
low (110). -/
def invalidBar : OHLCData := ⟨100, 90, 110, 100, 5⟩

/-- A sequence containing an invalid bar. -/
def invalidBars : List OHLCData := [barW1, invalidBar, barW3]

/-- Eight well-formed bars: enough for the 45M timeframe window but below
the orchestrator's global 15-bar threshold. -/
def thinBars : List OHLCData := List.replicate 8 barW1

/-- Sixteen well-formed bars: above the orchestrator's 15-bar threshold. -/
def wideBars : List OHLCData := List.replicate 16 barW1

/-! Helper lemmas about lengths. -/

theorem trueRanges_length (ohlcData : List OHLCData) :
    (trueRanges ohlcData).length = ohlcData.length := by
  cases ohlcData with
  | nil => rfl
  | cons c rest => simp [trueRanges, List.length_zipWith]

theorem wilderSmooth_length (period : ℕ) (trs : List ℚ) :
    ∀ s : ℚ, (wilderSmooth period s trs).length = trs.length := by
  induction trs with
  | nil => intro s; rfl
  | cons t trs ih => intro s; simp [wilderSmooth, ih]

theorem atrSeq_length (ohlcData : List OHLCData) (period : ℕ) :
    (atrSeq ohlcData period).length = 1 + (ohlcData.length - period) := by
  simp only [atrSeq, List.length_cons, wilderSmooth_length, List.length_drop,
    trueRanges_length]
  omega

theorem supertrendLoop_length (f : ℚ) (cs : List OHLCData) :
    ∀ (as_ : List ℚ) (prev : SupertrendResult) (pc : ℚ),
    (supertrendLoop f prev pc cs as_).length = min cs.length as_.length := by
  induction cs with
  | nil => intro as_ prev pc; cases as_ <;> simp [supertrendLoop]
  | cons c cs ih =>
      intro as_ prev pc
      cases as_ with
      | nil => simp [supertrendLoop]
      | cons a as_ =>
          simp only [supertrendLoop, List.length_cons, ih]
          omega

theorem supertrendResults_length (f : ℚ) (bars : List OHLCData) (atrs : List ℚ) :
    (supertrendResults f bars atrs).length = min bars.length atrs.length := by
  cases bars with
  | nil => cases atrs <;> simp [supertrendResults]
  | cons b bs =>
      cases atrs with
      | nil => simp [supertrendResults]
      | cons a as_ =>
          simp only [supertrendResults, List.length_cons, supertrendLoop_length]
          omega

/-! Case analysis of one Supertrend step. -/

/-- The four reachable branches of `supertrendStep`: given the previous
result's direction and the final bands, exactly the source's four cases can
occur and the fallback flag is always `false`. -/
theorem supertrendStep_spec (f : ℚ) (r : SupertrendResult) (pc : ℚ)
    (c : OHLCData) (a : ℚ) (fu fl : ℚ)
    (hfu : fu = if hl2 c + f * a < r.basicUpperBand ∨ pc > r.basicUpperBand
        then hl2 c + f * a else r.basicUpperBand)
    (hfl : fl = if hl2 c - f * a > r.basicLowerBand ∨ pc < r.basicLowerBand
        then hl2 c - f * a else r.basicLowerBand) :
    (r.direction = Direction.up ∧ c.close > fl ∧
        supertrendStep f r pc c a =
          (⟨fl, Direction.up, Signal.hold, a, fu, fl⟩, false)) ∨
    (r.direction = Direction.up ∧ c.close ≤ fl ∧
        supertrendStep f r pc c a =
          (⟨fu, Direction.down, Signal.sell, a, fu, fl⟩, false)) ∨
    (r.direction = Direction.down ∧ c.close < fu ∧
        supertrendStep f r pc c a =
          (⟨fu, Direction.down, Signal.hold, a, fu, fl⟩, false)) ∨
    (r.direction = Direction.down ∧ c.close ≥ fu ∧
        supertrendStep f r pc c a =
          (⟨fl, Direction.up, Signal.buy, a, fu, fl⟩, false)) := by
  subst hfu hfl
  cases hd : r.direction with
  | up =>
      rcases lt_or_le
          (if hl2 c - f * a > r.basicLowerBand ∨ pc < r.basicLowerBand
            then hl2 c - f * a else r.basicLowerBand) c.close with hc | hc
      · exact Or.inl ⟨rfl, hc, by simp [supertrendStep, hd, hc, not_le.mpr hc]⟩
      · exact Or.inr (Or.inl ⟨rfl, hc, by simp [supertrendStep, hd, hc, not_lt.mpr hc]⟩)
  | down =>
      rcases lt_or_le c.close
          (if hl2 c + f * a < r.basicUpperBand ∨ pc > r.basicUpperBand
            then hl2 c + f * a else r.basicUpperBand) with hc | hc
      · exact Or.inr (Or.inr (Or.inl ⟨rfl, hc, by
          simp [supertrendStep, hd, hc, not_le.mpr hc]⟩))
      · exact Or.inr (Or.inr (Or.inr ⟨rfl, hc, by
          simp [supertrendStep, hd, hc, not_lt.mpr hc]⟩))

theorem supertrendStep_bands (f : ℚ) (r : SupertrendResult) (pc : ℚ)
    (c : OHLCData) (a : ℚ) :
    ((supertrendStep f r pc c a).1.basicUpperBand =
      if hl2 c + f * a < r.basicUpperBand ∨ pc > r.basicUpperBand
      then hl2 c + f * a else r.basicUpperBand) ∧
    ((supertrendStep f r pc c a).1.basicLowerBand =
      if hl2 c - f * a > r.basicLowerBand ∨ pc < r.basicLowerBand
      then hl2 c - f * a else r.basicLowerBand) ∧
    (supertrendStep f r pc c a).1.atr = a := by
  rcases supertrendStep_spec f r pc c a _ _ rfl rfl with
    ⟨_, _, h⟩ | ⟨_, _, h⟩ | ⟨_, _, h⟩ | ⟨_, _, h⟩ <;> rw [h] <;> exact ⟨rfl, rfl, rfl⟩

/-- If both the previous and the current result are `up`, the current bar's
close is strictly above the current stored lower band (only the stay-up
branch produces this combination). -/
theorem supertrendStep_up_up_close (f : ℚ) (r : SupertrendResult) (pc : ℚ)
    (c : OHLCData) (a : ℚ) (h0 : r.direction = Direction.up)
    (h1 : (supertrendStep f r pc c a).1.direction = Direction.up) :
    c.close > (supertrendStep f r pc c a).1.basicLowerBand := by
  rcases supertrendStep_spec f r pc c a _ _ rfl rfl with
    ⟨hd, hc, h⟩ | ⟨hd, hc, h⟩ | ⟨hd, hc, h⟩ | ⟨hd, hc, h⟩ <;> rw [h] <;> rw [h] at h1
  · exact hc
  · exact absurd h1 (by simp)
  · exact absurd h1 (by simp)
  · exact absurd hd (by rw [h0]; simp)

/-- If both the previous and the current result are `down`, the current
bar's close is strictly below the current stored upper band. -/
theorem supertrendStep_down_down_close (f : ℚ) (r : SupertrendResult) (pc : ℚ)
    (c : OHLCData) (a : ℚ) (h0 : r.direction = Direction.down)
    (h1 : (supertrendStep f r pc c a).1.direction = Direction.down) :
    c.close < (supertrendStep f r pc c a).1.basicUpperBand := by
  rcases supertrendStep_spec f r pc c a _ _ rfl rfl with
    ⟨hd, hc, h⟩ | ⟨hd, hc, h⟩ | ⟨hd, hc, h⟩ | ⟨hd, hc, h⟩ <;> rw [h] <;> rw [h] at h1
  · exact absurd hd (by rw [h0]; simp)
  · exact absurd hd (by rw [h0]; simp)
  · exact hc
  · exact absurd h1 (by simp)

/-- The ratchet can only raise the stored lower band as long as the previous
close is not below the previous lower band. -/
theorem supertrendStep_lower_mono (f : ℚ) (r : SupertrendResult) (pc : ℚ)
    (c : OHLCData) (a : ℚ) (h : r.basicLowerBand ≤ pc) :
    r.basicLowerBand ≤ (supertrendStep f r pc c a).1.basicLowerBand := by
  rw [(supertrendStep_bands f r pc c a).2.1]
  split_ifs with h'
  · rcases h' with h' | h'
    · exact le_of_lt h'
    · exact absurd h (not_le.mpr h')
  · exact le_refl _

/-- The ratchet can only lower the stored upper band as long as the previous
close is not above the previous upper band. -/
theorem supertrendStep_upper_mono (f : ℚ) (r : SupertrendResult) (pc : ℚ)
    (c : OHLCData) (a : ℚ) (h : pc ≤ r.basicUpperBand) :
    (supertrendStep f r pc c a).1.basicUpperBand ≤ r.basicUpperBand := by
  rw [(supertrendStep_bands f r pc c a).1]
  split_ifs with h'
  · rcases h' with h' | h'
    · exact le_of_lt h'
    · exact absurd h (not_le.mpr h')
  · exact le_refl _

theorem supertrendStep_signal_buy (f : ℚ) (r : SupertrendResult) (pc : ℚ)
    (c : OHLCData) (a : ℚ) :
    (supertrendStep f r pc c a).1.signal = Signal.buy ↔
      r.direction = Direction.down ∧
        (supertrendStep f r pc c a).1.direction = Direction.up := by
  rcases supertrendStep_spec f r pc c a _ _ rfl rfl with
    ⟨hd, hc, h⟩ | ⟨hd, hc, h⟩ | ⟨hd, hc, h⟩ | ⟨hd, hc, h⟩ <;> rw [h, hd] <;> simp

theorem supertrendStep_signal_sell (f : ℚ) (r : SupertrendResult) (pc : ℚ)
    (c : OHLCData) (a : ℚ) :
    (supertrendStep f r pc c a).1.signal = Signal.sell ↔
      r.direction = Direction.up ∧
        (supertrendStep f r pc c a).1.direction = Direction.down := by
  rcases supertrendStep_spec f r pc c a _ _ rfl rfl with
    ⟨hd, hc, h⟩ | ⟨hd, hc, h⟩ | ⟨hd, hc, h⟩ | ⟨hd, hc, h⟩ <;> rw [h, hd] <;> simp

theorem supertrendStep_signal_hold (f : ℚ) (r : SupertrendResult) (pc : ℚ)
    (c : OHLCData) (a : ℚ) :
    (supertrendStep f r pc c a).1.signal = Signal.hold ↔
      r.direction = (supertrendStep f r pc c a).1.direction := by
  rcases supertrendStep_spec f r pc c a _ _ rfl rfl with
    ⟨hd, hc, h⟩ | ⟨hd, hc, h⟩ | ⟨hd, hc, h⟩ | ⟨hd, hc, h⟩ <;> rw [h, hd] <;> simp

/-! First-bar lemmas. -/

theorem supertrendFirst_fields (f : ℚ) (c : OHLCData) (a : ℚ) :
    (supertrendFirst f c a).basicUpperBand = hl2 c + f * a ∧
    (supertrendFirst f c a).basicLowerBand = hl2 c - f * a ∧
    (supertrendFirst f c a).atr = a ∧
    (supertrendFirst f c a).signal = Signal.hold := ⟨rfl, rfl, rfl, rfl⟩

theorem supertrendFirst_up_close (f : ℚ) (c : OHLCData) (a : ℚ)
    (h : (supertrendFirst f c a).direction = Direction.up) :
    c.close > (supertrendFirst f c a).basicLowerBand := by
  by_cases hc : c.close ≤ hl2 c - f * a
  · exact absurd h (by simp [supertrendFirst, hc])
  · have : (supertrendFirst f c a).basicLowerBand = hl2 c - f * a := rfl
    rw [this]
    exact not_le.mp hc

/-! Chain lemmas: consecutive result-list entries are related by one step. -/

theorem supertrendLoop_chain (f : ℚ) (k : ℕ) :
    ∀ (cs : List OHLCData) (as_ : List ℚ) (prev : SupertrendResult) (pc : ℚ),
    k + 1 < (supertrendLoop f prev pc cs as_).length →
    (supertrendLoop f prev pc cs as_).getD (k + 1) default =
      (supertrendStep f ((supertrendLoop f prev pc cs as_).getD k default)
        ((cs.getD k default).close) (cs.getD (k + 1) default)
        (as_.getD (k + 1) 0)).1 := by
  induction k with
  | zero =>
      intro cs as_ prev pc hlen
      rw [supertrendLoop_length] at hlen
      cases cs with
      | nil => simp at hlen
      | cons c0 cs =>
          cases as_ with
          | nil => simp at hlen
          | cons a0 as_ =>
              cases cs with
              | nil => simp at hlen
              | cons c1 cs =>
                  cases as_ with
                  | nil => simp at hlen
                  | cons a1 as_ =>
                      simp [supertrendLoop, List.getD_cons_zero,
                        List.getD_cons_succ]
  | succ k ih =>
      intro cs as_ prev pc hlen
      cases cs with
      | nil => rw [supertrendLoop_length] at hlen; simp at hlen
      | cons c0 cs =>
          cases as_ with
          | nil => rw [supertrendLoop_length] at hlen; simp at hlen
          | cons a0 as_ =>
              have hlen' : k + 1 <
                  (supertrendLoop f (supertrendStep f prev pc c0 a0).1
                    c0.close cs as_).length := by
                simp only [supertrendLoop, List.length_cons] at hlen
                omega
              have hstep := ih cs as_ (supertrendStep f prev pc c0 a0).1
                c0.close hlen'
              simpa [supertrendLoop, List.getD_cons_succ] using hstep

theorem supertrendResults_chain (f : ℚ) (bars : List OHLCData)
    (atrs : List ℚ) (k : ℕ)
    (h : k + 1 < (supertrendResults f bars atrs).length) :
    (supertrendResults f bars atrs).getD (k + 1) default =
      (supertrendStep f ((supertrendResults f bars atrs).getD k default)
        ((bars.getD k default).close) (bars.getD (k + 1) default)
        (atrs.getD (k + 1) 0)).1 := by
  cases bars with
  | nil => rw [supertrendResults_length] at h; simp at h
  | cons b bs =>
      cases atrs with
      | nil => rw [supertrendResults_length] at h; simp at h
      | cons a as_ =>
          cases k with
          | zero =>
              simp only [supertrendResults, List.length_cons] at h
              rw [supertrendLoop_length] at h
              cases bs with
              | nil => simp at h
              | cons b1 bs =>
                  cases as_ with
                  | nil => simp at h
                  | cons a1 as_ =>
                      simp [supertrendResults, supertrendLoop,
                        List.getD_cons_zero, List.getD_cons_succ]
          | succ k =>
              have h' : k + 1 <
                  (supertrendLoop f (supertrendFirst f b a) b.close bs as_).length := by
                simp only [supertrendResults, List.length_cons] at h
                omega
              have hstep := supertrendLoop_chain f k bs as_
                (supertrendFirst f b a) b.close h'
              simpa [supertrendResults, List.getD_cons_succ] using hstep

theorem supertrendResults_head (f : ℚ) (b : OHLCData) (bs : List OHLCData)
    (a : ℚ) (as_ : List ℚ) :
    (supertrendResults f (b :: bs) (a :: as_)).getD 0 default =
      supertrendFirst f b a := rfl

/-! Unfolding the top-level functions under the length precondition. -/

theorem calculateSupertrend_ok (ohlcData : List OHLCData)
    (config : SupertrendConfig)
    (hlen : config.atrPeriod + 1 ≤ ohlcData.length) :
    calculateSupertrend ohlcData config =
      Except.ok (supertrendResults config.factor
        (ohlcData.drop (config.atrPeriod - 1))
        (atrSeq ohlcData config.atrPeriod)) := by
  have h1 : ¬ ohlcData.length < config.atrPeriod + 1 := by omega
  have h2 : ¬ ohlcData.length < config.atrPeriod := by omega
  simp [calculateSupertrend, calculateATR, h1, h2]

theorem calculateSupertrend_err (ohlcData : List OHLCData)
    (config : SupertrendConfig)
    (hlen : ohlcData.length < config.atrPeriod + 1) :
    calculateSupertrend ohlcData config =
      Except.error (IndicatorError.insufficientData (config.atrPeriod + 1)
        ohlcData.length) := by
  simp [calculateSupertrend, hlen]

theorem supertrendResults_full_length (ohlcData : List OHLCData)
    (config : SupertrendConfig) (hp : 1 ≤ config.atrPeriod)
    (hlen : config.atrPeriod + 1 ≤ ohlcData.length) :
    (supertrendResults config.factor (ohlcData.drop (config.atrPeriod - 1))
      (atrSeq ohlcData config.atrPeriod)).length =
      ohlcData.length - config.atrPeriod + 1 := by
  rw [supertrendResults_length, List.length_drop, atrSeq_length]
  omega

theorem getLatestSupertrendSignal_spec (ohlcData : List OHLCData)
    (config : SupertrendConfig) (hp : 1 ≤ config.atrPeriod)
    (hlen : config.atrPeriod + 1 ≤ ohlcData.length) :
    ∃ results,
      calculateSupertrend ohlcData config = Except.ok results ∧
      getLatestSupertrendSignal ohlcData config = results.getLast? ∧
      (getLatestSupertrendSignal ohlcData config).isSome = true := by
  refine ⟨_, calculateSupertrend_ok ohlcData config hlen, ?_, ?_⟩
  · simp [getLatestSupertrendSignal, calculateSupertrend_ok ohlcData config hlen]
  · have hne : (supertrendResults config.factor
        (ohlcData.drop (config.atrPeriod - 1))
        (atrSeq ohlcData config.atrPeriod)) ≠ [] := by
      intro hnil
      have := supertrendResults_full_length ohlcData config hp hlen
      rw [hnil] at this
      simp at this
    simp only [getLatestSupertrendSignal,
      calculateSupertrend_ok ohlcData config hlen]
    exact List.getLast?_isSome.mpr hne

theorem getLatestSupertrendSignal_none (ohlcData : List OHLCData)
    (config : SupertrendConfig)
    (hlen : ohlcData.length < config.atrPeriod + 1) :
    getLatestSupertrendSignal ohlcData config = none := by
  simp [getLatestSupertrendSignal, calculateSupertrend_err ohlcData config hlen]

theorem supertrendOutput_eq (ohlcData : List OHLCData)
    (config : SupertrendConfig)
    (hlen : config.atrPeriod + 1 ≤ ohlcData.length) :
    supertrendOutput ohlcData config =
      supertrendResults config.factor (eligibleBars ohlcData config)
        (atrSeq ohlcData config.atrPeriod) := by
  simp [supertrendOutput, eligibleBars,
    calculateSupertrend_ok ohlcData config hlen, Except.toOption]

theorem supertrendOutput_length (ohlcData : List OHLCData)
    (config : SupertrendConfig) (hp : 1 ≤ config.atrPeriod)
    (hlen : config.atrPeriod + 1 ≤ ohlcData.length) :
    (supertrendOutput ohlcData config).length =
      ohlcData.length - config.atrPeriod + 1 := by
  rw [supertrendOutput_eq ohlcData config hlen]
  exact supertrendResults_full_length ohlcData config hp hlen

theorem supertrendOutput_chain (ohlcData : List OHLCData)
    (config : SupertrendConfig)
    (hlen : config.atrPeriod + 1 ≤ ohlcData.length) (k : ℕ)
    (hk : k + 1 < (supertrendOutput ohlcData config).length) :
    (supertrendOutput ohlcData config).getD (k + 1) default =
      (supertrendStep config.factor
        ((supertrendOutput ohlcData config).getD k default)
        (((eligibleBars ohlcData config).getD k default).close)
        ((eligibleBars ohlcData config).getD (k + 1) default)
        ((atrSeq ohlcData config.atrPeriod).getD (k + 1) 0)).1 := by
  rw [supertrendOutput_eq ohlcData config hlen] at hk ⊢
  exact supertrendResults_chain config.factor _ _ k hk

theorem supertrendResults_first_bands (f : ℚ) (bars : List OHLCData)
    (atrs : List ℚ) (h : 0 < (supertrendResults f bars atrs).length) :
    ((supertrendResults f bars atrs).getD 0 default).basicUpperBand =
      hl2 (bars.getD 0 default) +
        f * ((supertrendResults f bars atrs).getD 0 default).atr ∧
    ((supertrendResults f bars atrs).getD 0 default).basicLowerBand =
      hl2 (bars.getD 0 default) -
        f * ((supertrendResults f bars atrs).getD 0 default).atr ∧
    ((supertrendResults f bars atrs).getD 0 default).signal = Signal.hold := by
  cases bars with
  | nil => rw [supertrendResults_length] at h; simp at h
  | cons b bs =>
      cases atrs with
      | nil => rw [supertrendResults_length] at h; simp at h
      | cons a as_ => exact ⟨rfl, rfl, rfl⟩

/-! ATR chain lemmas. -/

theorem wilderSmooth_chain (p : ℕ) (k : ℕ) :
    ∀ (l : List ℚ) (s : ℚ), k + 1 < (s :: wilderSmooth p s l).length →
    (s :: wilderSmooth p s l).getD (k + 1) 0 =
      ((s :: wilderSmooth p s l).getD k 0 * ((p : ℚ) - 1) + l.getD k 0) /
        (p : ℚ) := by
  induction k with
  | zero =>
      intro l s hlen
      cases l with
      | nil => simp [wilderSmooth] at hlen
      | cons t l => simp [wilderSmooth, List.getD_cons_zero, List.getD_cons_succ]
  | succ k ih =>
      intro l s hlen
      cases l with
      | nil => simp [wilderSmooth] at hlen
      | cons t l =>
          have hlen' : k + 1 <
              ((s * ((p : ℚ) - 1) + t) / (p : ℚ) ::
                wilderSmooth p ((s * ((p : ℚ) - 1) + t) / (p : ℚ)) l).length := by
            simp only [wilderSmooth, List.length_cons] at hlen ⊢
            rw [wilderSmooth_length] at hlen ⊢
            omega
          have hstep := ih l ((s * ((p : ℚ) - 1) + t) / (p : ℚ)) hlen'
          simpa [wilderSmooth, List.getD_cons_succ] using hstep

theorem atrSeq_eq (ohlcData : List OHLCData) (period : ℕ) :
    atrSeq ohlcData period =
      ((trueRanges ohlcData).take period).sum / (period : ℚ) ::
        wilderSmooth period
          (((trueRanges ohlcData).take period).sum / (period : ℚ))
          ((trueRanges ohlcData).drop period) := rfl

theorem getD_drop_rat (l : List ℚ) (m n : ℕ) (d : ℚ) (h : m + n < l.length) :
    (l.drop m).getD n d = l.getD (m + n) d := by
  rw [List.getD_eq_getElem _ _ (by rw [List.length_drop]; omega),
    List.getD_eq_getElem _ _ h, List.getElem_drop]

theorem trueRanges_getD_succ (ohlcData : List OHLCData) (i : ℕ)
    (h : i + 1 < ohlcData.length) :
    (trueRanges ohlcData).getD (i + 1) 0 =
      calculateTrueRange (ohlcData.getD (i + 1) default)
        (some (ohlcData.getD i default)) := by
  cases ohlcData with
  | nil => simp at h
  | cons c rest =>
      have hi : i < rest.length := by
        simp only [List.length_cons] at h
        omega
      have hzip : i < (List.zipWith
          (fun prev cur => calculateTrueRange cur (some prev))
          (c :: rest) (c :: rest).tail).length := by
        rw [List.length_zipWith]
        simp only [List.tail_cons, List.length_cons]
        omega
      simp only [trueRanges, List.getD_cons_succ]
      rw [List.getD_eq_getElem _ _ hzip, List.getElem_zipWith]
      rw [List.getD_eq_getElem _ _ hi,
        List.getD_eq_getElem _ _ (by simp only [List.length_cons]; omega :
          i < (c :: rest).length)]
      simp [List.tail_cons]

/-! Claim theorems. -/

/-- Claim C1: band ratchet rule.  For every input of length at least
`atrPeriod + 1` and every configuration with `atrPeriod ≥ 1` (the range the
spec admits for an ATR period), the stored band fields of the output obey
the ratchet rule: on the first eligible bar they equal the basic bands
`hl2 ± factor * atr`, and on every later bar the stored upper band is
`basicUpper` exactly when `basicUpper < previousFinalUpper` or
`previousClose > previousFinalUpper` and is carried forward otherwise, and
symmetrically for the lower band. -/
theorem supertrend_band_ratchet (ohlcData : List OHLCData)
    (config : SupertrendConfig) (hp : 1 ≤ config.atrPeriod)
    (hlen : config.atrPeriod + 1 ≤ ohlcData.length) :
    (((supertrendOutput ohlcData config).getD 0 default).basicUpperBand =
      hl2 ((eligibleBars ohlcData config).getD 0 default) +
        config.factor *
          ((supertrendOutput ohlcData config).getD 0 default).atr) ∧
    (((supertrendOutput ohlcData config).getD 0 default).basicLowerBand =
      hl2 ((eligibleBars ohlcData config).getD 0 default) -
        config.factor *
          ((supertrendOutput ohlcData config).getD 0 default).atr) ∧
    ∀ k, k + 1 < (supertrendOutput ohlcData config).length →
      (((supertrendOutput ohlcData config).getD (k + 1) default).basicUpperBand =
        if hl2 ((eligibleBars ohlcData config).getD (k + 1) default) +
              config.factor *
                ((supertrendOutput ohlcData config).getD (k + 1) default).atr <
              ((supertrendOutput ohlcData config).getD k default).basicUpperBand ∨
            ((eligibleBars ohlcData config).getD k default).close >
              ((supertrendOutput ohlcData config).getD k default).basicUpperBand
        then hl2 ((eligibleBars ohlcData config).getD (k + 1) default) +
              config.factor *
                ((supertrendOutput ohlcData config).getD (k + 1) default).atr
        else ((supertrendOutput ohlcData config).getD k default).basicUpperBand) ∧
      (((supertrendOutput ohlcData config).getD (k + 1) default).basicLowerBand =
        if hl2 ((eligibleBars ohlcData config).getD (k + 1) default) -
              config.factor *
                ((supertrendOutput ohlcData config).getD (k + 1) default).atr >
              ((supertrendOutput ohlcData config).getD k default).basicLowerBand ∨
            ((eligibleBars ohlcData config).getD k default).close <
              ((supertrendOutput ohlcData config).getD k default).basicLowerBand
        then hl2 ((eligibleBars ohlcData config).getD (k + 1) default) -
              config.factor *
                ((supertrendOutput ohlcData config).getD (k + 1) default).atr
        else ((supertrendOutput ohlcData config).getD k default).basicLowerBand) := by
  have h0 : 0 < (supertrendOutput ohlcData config).length := by
    rw [supertrendOutput_length ohlcData config hp hlen]
    omega
  refine ⟨?_, ?_, ?_⟩
  · rw [supertrendOutput_eq ohlcData config hlen] at h0 ⊢
    exact (supertrendResults_first_bands config.factor _ _ h0).1
  · rw [supertrendOutput_eq ohlcData config hlen] at h0 ⊢
    exact (supertrendResults_first_bands config.factor _ _ h0).2.1
  · intro k hk
    have hchain := supertrendOutput_chain ohlcData config hlen k hk
    have hatr : ((supertrendOutput ohlcData config).getD (k + 1) default).atr =
        (atrSeq ohlcData config.atrPeriod).getD (k + 1) 0 := by
      rw [hchain]
      exact (supertrendStep_bands _ _ _ _ _).2.2
    constructor
    · rw [hatr, hchain, (supertrendStep_bands _ _ _ _ _).1]
    · rw [hatr, hchain, (supertrendStep_bands _ _ _ _ _).2.1]

/-- Witness for C1 at a concrete three-bar input with period 2, factor 1/2. -/
theorem supertrend_band_ratchet_witness :
    (((supertrendOutput witnessBars configHalf).getD 0 default).basicUpperBand =
      hl2 ((eligibleBars witnessBars configHalf).getD 0 default) +
        configHalf.factor *
          ((supertrendOutput witnessBars configHalf).getD 0 default).atr) ∧
    (((supertrendOutput witnessBars configHalf).getD 0 default).basicLowerBand =
      hl2 ((eligibleBars witnessBars configHalf).getD 0 default) -
        configHalf.factor *
          ((supertrendOutput witnessBars configHalf).getD 0 default).atr) ∧
    ∀ k, k + 1 < (supertrendOutput witnessBars configHalf).length →
      (((supertrendOutput witnessBars configHalf).getD (k + 1) default).basicUpperBand =
        if hl2 ((eligibleBars witnessBars configHalf).getD (k + 1) default) +
              configHalf.factor *
                ((supertrendOutput witnessBars configHalf).getD (k + 1) default).atr <
              ((supertrendOutput witnessBars configHalf).getD k default).basicUpperBand ∨
            ((eligibleBars witnessBars configHalf).getD k default).close >
              ((supertrendOutput witnessBars configHalf).getD k default).basicUpperBand
        then hl2 ((eligibleBars witnessBars configHalf).getD (k + 1) default) +
              configHalf.factor *
                ((supertrendOutput witnessBars configHalf).getD (k + 1) default).atr
        else ((supertrendOutput witnessBars configHalf).getD k default).basicUpperBand) ∧
      (((supertrendOutput witnessBars configHalf).getD (k + 1) default).basicLowerBand =
        if hl2 ((eligibleBars witnessBars configHalf).getD (k + 1) default) -
              configHalf.factor *
                ((supertrendOutput witnessBars configHalf).getD (k + 1) default).atr >
              ((supertrendOutput witnessBars configHalf).getD k default).basicLowerBand ∨
            ((eligibleBars witnessBars configHalf).getD k default).close <
              ((supertrendOutput witnessBars configHalf).getD k default).basicLowerBand
        then hl2 ((eligibleBars witnessBars configHalf).getD (k + 1) default) -
              configHalf.factor *
                ((supertrendOutput witnessBars configHalf).getD (k + 1) default).atr
        else ((supertrendOutput witnessBars configHalf).getD k default).basicLowerBand) :=
  supertrend_band_ratchet witnessBars configHalf (by decide) (by decide)

/-- Claim C3: `calculateSupertrend` throws the insufficient-data error
exactly when the input has fewer than `atrPeriod + 1` bars (for the spec's
admissible periods `atrPeriod ≥ 1`), and otherwise returns exactly
`length(input) - atrPeriod + 1` results, one per input bar from index
`atrPeriod - 1` onward. -/
theorem supertrend_length_invariant (ohlcData : List OHLCData)
    (config : SupertrendConfig) (hp : 1 ≤ config.atrPeriod) :
    (ohlcData.length < config.atrPeriod + 1 →
      calculateSupertrend ohlcData config =
        Except.error (IndicatorError.insufficientData (config.atrPeriod + 1)
          ohlcData.length)) ∧
    (config.atrPeriod + 1 ≤ ohlcData.length →
      ∃ results, calculateSupertrend ohlcData config = Except.ok results ∧
        results.length = ohlcData.length - config.atrPeriod + 1) := by
  refine ⟨calculateSupertrend_err ohlcData config, fun hlen => ?_⟩
  exact ⟨_, calculateSupertrend_ok ohlcData config hlen,
    supertrendResults_full_length ohlcData config hp hlen⟩

/-- Witness for C3: a three-bar input with period 2 produces two results,
and a one-bar input produces the insufficient-data error. -/
theorem supertrend_length_invariant_witness :
    (∃ results, calculateSupertrend witnessBars configHalf = Except.ok results ∧
      results.length = witnessBars.length - configHalf.atrPeriod + 1) ∧
    calculateSupertrend [barW1] configHalf =
      Except.error (IndicatorError.insufficientData (configHalf.atrPeriod + 1)
        [barW1].length) :=
  ⟨(supertrend_length_invariant witnessBars configHalf (by decide)).2 (by decide),
   (supertrend_length_invariant [barW1] configHalf (by decide)).1 (by decide)⟩

/-- Claim C7: the defensive fallback branch of the direction state machine
is unreachable: for every previous result, previous close, current bar and
ATR value, one of the four direction cases fires, so the fallback flag of
`supertrendStep` (the loop body of `calculateSupertrend` for bars after the
first eligible bar) is always `false`. -/
theorem supertrend_fallback_unreachable (f : ℚ) (r : SupertrendResult)
    (pc : ℚ) (c : OHLCData) (a : ℚ) :
    (supertrendStep f r pc c a).2 = false := by
  rcases supertrendStep_spec f r pc c a _ _ rfl rfl with
    ⟨_, _, h⟩ | ⟨_, _, h⟩ | ⟨_, _, h⟩ | ⟨_, _, h⟩ <;> rw [h]

/-- Claim C9: `getLatestSupertrendSignal` is total.  With enough data it
returns the last Supertrend result (a non-`none` value); with insufficient
data the thrown error is caught and `none` is returned. -/
theorem getLatest_total (ohlcData : List OHLCData) (config : SupertrendConfig)
    (hp : 1 ≤ config.atrPeriod) :
    (config.atrPeriod + 1 ≤ ohlcData.length →
      ∃ results, calculateSupertrend ohlcData config = Except.ok results ∧
        getLatestSupertrendSignal ohlcData config = results.getLast? ∧
        (getLatestSupertrendSignal ohlcData config).isSome = true) ∧
    (ohlcData.length < config.atrPeriod + 1 →
      getLatestSupertrendSignal ohlcData config = none) :=
  ⟨fun hlen => getLatestSupertrendSignal_spec ohlcData config hp hlen,
   fun hlen => getLatestSupertrendSignal_none ohlcData config hlen⟩

/-- Witness for C9: on three bars the latest signal is present; on one bar
it is `none`. -/
theorem getLatest_total_witness :
    (∃ results, calculateSupertrend witnessBars configHalf = Except.ok results ∧
      getLatestSupertrendSignal witnessBars configHalf = results.getLast? ∧
      (getLatestSupertrendSignal witnessBars configHalf).isSome = true) ∧
    getLatestSupertrendSignal [barW1] configHalf = none :=
  ⟨(getLatest_total witnessBars configHalf (by decide)).1 (by decide),
   (getLatest_total [barW1] configHalf (by decide)).2 (by decide)⟩

/-- Counterexample to claim C2 as stated.  On `crossedBandBars` with period
2 and factor 1/2, output bars 1 and 2 form a run of consecutive `up` bars
(bar 1 is the flip bar), yet the stored final lower band *decreases* from
150 to 105: the flip bar's close (100) lies below its final lower band
(the bands cross on the flip bar), which re-arms the ratchet's
`previousClose < previousFinalLower` escape. -/
theorem supertrend_band_monotonicity_counterexample :
    (supertrendOutput crossedBandBars configHalf).length = 3 ∧
    ((supertrendOutput crossedBandBars configHalf).getD 1 default).direction =
      Direction.up ∧
    ((supertrendOutput crossedBandBars configHalf).getD 2 default).direction =
      Direction.up ∧
    ((supertrendOutput crossedBandBars configHalf).getD 2 default).basicLowerBand <
      ((supertrendOutput crossedBandBars configHalf).getD 1 default).basicLowerBand :=
  of_decide_eq_true (by with_unfolding_all rfl)

/-- Claim C2, amended: within a run of consecutive `up` bars the stored
final lower band is non-decreasing *from the run's second bar onward*, and
symmetrically the final upper band is non-increasing within a `down` run
from its second bar onward.  (The single step leaving the run's first bar
may move the band the wrong way when that bar's close lies beyond its own
band — possible on a flip bar with crossed bands, as the counterexample
shows.)  Stated over any three consecutive output bars of equal direction. -/
theorem supertrend_band_monotonicity (ohlcData : List OHLCData)
    (config : SupertrendConfig)
    (hlen : config.atrPeriod + 1 ≤ ohlcData.length) :
    ∀ k, k + 2 < (supertrendOutput ohlcData config).length →
      (((supertrendOutput ohlcData config).getD k default).direction =
          Direction.up →
        ((supertrendOutput ohlcData config).getD (k + 1) default).direction =
          Direction.up →
        ((supertrendOutput ohlcData config).getD (k + 2) default).direction =
          Direction.up →
        ((supertrendOutput ohlcData config).getD (k + 1) default).basicLowerBand ≤
          ((supertrendOutput ohlcData config).getD (k + 2) default).basicLowerBand) ∧
      (((supertrendOutput ohlcData config).getD k default).direction =
          Direction.down →
        ((supertrendOutput ohlcData config).getD (k + 1) default).direction =
          Direction.down →
        ((supertrendOutput ohlcData config).getD (k + 2) default).direction =
          Direction.down →
        ((supertrendOutput ohlcData config).getD (k + 2) default).basicUpperBand ≤
          ((supertrendOutput ohlcData config).getD (k + 1) default).basicUpperBand) := by
  intro k hk
  have hk1 : k + 1 < (supertrendOutput ohlcData config).length := by omega
  have hch1 := supertrendOutput_chain ohlcData config hlen k hk1
  have hch2 := supertrendOutput_chain ohlcData config hlen (k + 1) hk
  constructor
  · intro hu0 hu1 _
    have hclose :
        ((eligibleBars ohlcData config).getD (k + 1) default).close >
          ((supertrendOutput ohlcData config).getD (k + 1) default).basicLowerBand := by
      rw [hch1] at hu1 ⊢
      exact supertrendStep_up_up_close _ _ _ _ _ hu0 hu1
    rw [hch2]
    exact supertrendStep_lower_mono _ _ _ _ _ (le_of_lt hclose)
  · intro hd0 hd1 _
    have hclose :
        ((eligibleBars ohlcData config).getD (k + 1) default).close <
          ((supertrendOutput ohlcData config).getD (k + 1) default).basicUpperBand := by
      rw [hch1] at hd1 ⊢
      exact supertrendStep_down_down_close _ _ _ _ _ hd0 hd1
    rw [hch2]
    exact supertrendStep_upper_mono _ _ _ _ _ (le_of_lt hclose)

/-- Witness for the amended C2: over four identical bars the output is a
run of three `up` bars, and the lower band indeed does not decrease from
the run's second bar to its third. -/
theorem supertrend_band_monotonicity_witness :
    ((supertrendOutput flatBars4 configHalf).getD 1 default).basicLowerBand ≤
      ((supertrendOutput flatBars4 configHalf).getD 2 default).basicLowerBand :=
  (supertrend_band_monotonicity flatBars4 configHalf (by decide) 0
      (by decide)).1
    (of_decide_eq_true (by with_unfolding_all rfl))
    (of_decide_eq_true (by with_unfolding_all rfl))
    (of_decide_eq_true (by with_unfolding_all rfl))

/-- Claim C6: signal exclusivity.  The first output bar's signal is `hold`;
on every later bar the signal is `buy` exactly on a down-to-up flip, `sell`
exactly on an up-to-down flip, and `hold` exactly when the direction equals
the previous output bar's direction. -/
theorem supertrend_signal_exclusivity (ohlcData : List OHLCData)
    (config : SupertrendConfig) (hp : 1 ≤ config.atrPeriod)
    (hlen : config.atrPeriod + 1 ≤ ohlcData.length) :
    ((supertrendOutput ohlcData config).getD 0 default).signal = Signal.hold ∧
    ∀ k, k + 1 < (supertrendOutput ohlcData config).length →
      (((supertrendOutput ohlcData config).getD (k + 1) default).signal =
          Signal.buy ↔
        ((supertrendOutput ohlcData config).getD k default).direction =
            Direction.down ∧
          ((supertrendOutput ohlcData config).getD (k + 1) default).direction =
            Direction.up) ∧
      (((supertrendOutput ohlcData config).getD (k + 1) default).signal =
          Signal.sell ↔
        ((supertrendOutput ohlcData config).getD k default).direction =
            Direction.up ∧
          ((supertrendOutput ohlcData config).getD (k + 1) default).direction =
            Direction.down) ∧
      (((supertrendOutput ohlcData config).getD (k + 1) default).signal =
          Signal.hold ↔
        ((supertrendOutput ohlcData config).getD k default).direction =
          ((supertrendOutput ohlcData config).getD (k + 1) default).direction) := by
  constructor
  · have h0 : 0 < (supertrendOutput ohlcData config).length := by
      rw [supertrendOutput_length ohlcData config hp hlen]
      omega
    rw [supertrendOutput_eq ohlcData config hlen] at h0 ⊢
    exact (supertrendResults_first_bands config.factor _ _ h0).2.2
  · intro k hk
    have hchain := supertrendOutput_chain ohlcData config hlen k hk
    refine ⟨?_, ?_, ?_⟩
    · rw [hchain]
      exact supertrendStep_signal_buy _ _ _ _ _
    · rw [hchain]
      exact supertrendStep_signal_sell _ _ _ _ _
    · rw [hchain]
      exact supertrendStep_signal_hold _ _ _ _ _

/-- Witness for C6 at a concrete three-bar input. -/
theorem supertrend_signal_exclusivity_witness :
    ((supertrendOutput witnessBars configHalf).getD 0 default).signal =
      Signal.hold ∧
    ∀ k, k + 1 < (supertrendOutput witnessBars configHalf).length →
      (((supertrendOutput witnessBars configHalf).getD (k + 1) default).signal =
          Signal.buy ↔
        ((supertrendOutput witnessBars configHalf).getD k default).direction =
            Direction.down ∧
          ((supertrendOutput witnessBars configHalf).getD (k + 1) default).direction =
            Direction.up) ∧
      (((supertrendOutput witnessBars configHalf).getD (k + 1) default).signal =
          Signal.sell ↔
        ((supertrendOutput witnessBars configHalf).getD k default).direction =
            Direction.up ∧
          ((supertrendOutput witnessBars configHalf).getD (k + 1) default).direction =
            Direction.down) ∧
      (((supertrendOutput witnessBars configHalf).getD (k + 1) default).signal =
          Signal.hold ↔
        ((supertrendOutput witnessBars configHalf).getD k default).direction =
          ((supertrendOutput witnessBars configHalf).getD (k + 1) default).direction) :=
  supertrend_signal_exclusivity witnessBars configHalf (by decide) (by decide)

/-- Claim C4: ATR smoother correctness.  For admissible periods
(`period ≥ 1`), with fewer than `period` bars `calculateATR` fails with the
insufficient-data error naming the required and actual counts; otherwise it
returns `length - period + 1` values whose first is the arithmetic mean of
the first `period` true ranges and whose successors obey Wilder smoothing
`ATR[k] = (ATR[k-1] * (period - 1) + TR[period - 1 + k]) / period`, where
the true range of bar 0 is `high - low` and of bar `i > 0` is
`max(high - low, |high - prevClose|, |low - prevClose|)`. -/
theorem atr_smoother_correct (ohlcData : List OHLCData) (period : ℕ)
    (hp : 1 ≤ period) :
    (ohlcData.length < period →
      calculateATR ohlcData period =
        Except.error (IndicatorError.insufficientData period ohlcData.length)) ∧
    (period ≤ ohlcData.length →
      ∃ atrs, calculateATR ohlcData period = Except.ok atrs ∧
        atrs.length = ohlcData.length - period + 1 ∧
        atrs.getD 0 0 = ((trueRanges ohlcData).take period).sum / (period : ℚ) ∧
        (∀ k, k + 1 < atrs.length →
          atrs.getD (k + 1) 0 =
            (atrs.getD k 0 * ((period : ℚ) - 1) +
              (trueRanges ohlcData).getD (period + k) 0) / (period : ℚ)) ∧
        (trueRanges ohlcData).getD 0 0 =
          (ohlcData.getD 0 default).high - (ohlcData.getD 0 default).low ∧
        (∀ i, i + 1 < ohlcData.length →
          (trueRanges ohlcData).getD (i + 1) 0 =
            max ((ohlcData.getD (i + 1) default).high -
                (ohlcData.getD (i + 1) default).low)
              (max |(ohlcData.getD (i + 1) default).high -
                    (ohlcData.getD i default).close|
                |(ohlcData.getD (i + 1) default).low -
                    (ohlcData.getD i default).close|))) := by
  constructor
  · intro h
    simp [calculateATR, h]
  · intro hlen
    have hok : calculateATR ohlcData period =
        Except.ok (atrSeq ohlcData period) := by
      simp [calculateATR, Nat.not_lt.mpr hlen]
    refine ⟨atrSeq ohlcData period, hok, ?_, rfl, ?_, ?_, ?_⟩
    · rw [atrSeq_length]
      omega
    · intro k hk
      have hk0 : k + 1 < 1 + (ohlcData.length - period) := by
        rw [atrSeq_length] at hk
        exact hk
      have hb : period + k < (trueRanges ohlcData).length := by
        rw [trueRanges_length]
        omega
      have hk2 : k + 1 <
          (((trueRanges ohlcData).take period).sum / (period : ℚ) ::
            wilderSmooth period
              (((trueRanges ohlcData).take period).sum / (period : ℚ))
              ((trueRanges ohlcData).drop period)).length := by
        rw [← atrSeq_eq]
        exact hk
      rw [atrSeq_eq, wilderSmooth_chain period k _ _ hk2,
        getD_drop_rat _ _ _ _ hb]
    · cases ohlcData with
      | nil =>
          simp only [List.length_nil] at hlen
          omega
      | cons c rest => rfl
    · intro i hi
      rw [trueRanges_getD_succ ohlcData i hi]
      rfl

/-- Witness for C4 at a concrete four-bar input with period 2. -/
theorem atr_smoother_correct_witness :
    ∃ atrs, calculateATR crossedBandBars 2 = Except.ok atrs ∧
      atrs.length = crossedBandBars.length - 2 + 1 ∧
      atrs.getD 0 0 = ((trueRanges crossedBandBars).take 2).sum / (2 : ℚ) ∧
      (∀ k, k + 1 < atrs.length →
        atrs.getD (k + 1) 0 =
          (atrs.getD k 0 * ((2 : ℚ) - 1) +
            (trueRanges crossedBandBars).getD (2 + k) 0) / (2 : ℚ)) ∧
      (trueRanges crossedBandBars).getD 0 0 =
        (crossedBandBars.getD 0 default).high -
          (crossedBandBars.getD 0 default).low ∧
      (∀ i, i + 1 < crossedBandBars.length →
        (trueRanges crossedBandBars).getD (i + 1) 0 =
          max ((crossedBandBars.getD (i + 1) default).high -
              (crossedBandBars.getD (i + 1) default).low)
            (max |(crossedBandBars.getD (i + 1) default).high -
                  (crossedBandBars.getD i default).close|
              |(crossedBandBars.getD (i + 1) default).low -
                  (crossedBandBars.getD i default).close|)) :=
  (atr_smoother_correct crossedBandBars 2 (by decide)).2 (by decide)

theorem timeframeWindow_le (tf : Timeframe) (n : ℕ) :
    timeframeWindow tf n ≤ n := by
  cases tf <;> simp [timeframeWindow]

theorem timeframeConfig_period_pos (tf : Timeframe) :
    1 ≤ (timeframeConfig tf).atrPeriod := by
  cases tf <;> decide

/-- Counterexample to claim C5 as stated.  With eight bars the 45M window
(`min 20 8 = 8` bars) meets its `atrPeriod + 1 = 8` requirement, yet the
orchestrator records no result, because it short-circuits to all-`null`
whenever the master sequence has fewer than 15 bars. -/
theorem orchestrator_policy_counterexample :
    (timeframeConfig Timeframe.tf45M).atrPeriod + 1 ≤
      (thinBars.drop (thinBars.length -
        timeframeWindow Timeframe.tf45M thinBars.length)).length ∧
    calculateSupertrendForTimeframes thinBars Timeframe.tf45M = none := by
  refine ⟨by decide, by decide⟩

/-- Claim C5, amended: *provided the master sequence has at least 15 bars*
(the orchestrator returns all-absent below that global threshold), each
timeframe takes the last `min(windowLength, length)` bars, records the last
element of the Supertrend output over that slice (present, non-null)
whenever the slice has at least `atrPeriod + 1` bars, and is absent exactly
when the slice is shorter than `atrPeriod + 1`. -/
theorem orchestrator_window_policy (ohlcData : List OHLCData)
    (h15 : 15 ≤ ohlcData.length) (tf : Timeframe) :
    (ohlcData.drop
        (ohlcData.length - timeframeWindow tf ohlcData.length)).length =
      timeframeWindow tf ohlcData.length ∧
    ((timeframeConfig tf).atrPeriod + 1 ≤ timeframeWindow tf ohlcData.length →
      ∃ results,
        calculateSupertrend
          (ohlcData.drop
            (ohlcData.length - timeframeWindow tf ohlcData.length))
          (timeframeConfig tf) = Except.ok results ∧
        calculateSupertrendForTimeframes ohlcData tf = results.getLast? ∧
        (calculateSupertrendForTimeframes ohlcData tf).isSome = true) ∧
    (timeframeWindow tf ohlcData.length < (timeframeConfig tf).atrPeriod + 1 →
      calculateSupertrendForTimeframes ohlcData tf = none) := by
  have hw := timeframeWindow_le tf ohlcData.length
  have hslice : (ohlcData.drop
      (ohlcData.length - timeframeWindow tf ohlcData.length)).length =
      timeframeWindow tf ohlcData.length := by
    rw [List.length_drop]
    omega
  refine ⟨hslice, ?_, ?_⟩
  · intro hcond
    have hp := timeframeConfig_period_pos tf
    have hlen' : (timeframeConfig tf).atrPeriod + 1 ≤
        (ohlcData.drop
          (ohlcData.length - timeframeWindow tf ohlcData.length)).length := by
      rw [hslice]
      exact hcond
    obtain ⟨results, hok, hlast, hsome⟩ :=
      getLatestSupertrendSignal_spec _ (timeframeConfig tf) hp hlen'
    have horch : calculateSupertrendForTimeframes ohlcData tf =
        getLatestSupertrendSignal
          (ohlcData.drop
            (ohlcData.length - timeframeWindow tf ohlcData.length))
          (timeframeConfig tf) := by
      simp only [calculateSupertrendForTimeframes]
      rw [if_neg (by omega), if_pos hlen']
    exact ⟨results, hok, by rw [horch]; exact hlast, by rw [horch]; exact hsome⟩
  · intro hcond
    have hlt : ¬ ((timeframeConfig tf).atrPeriod + 1 ≤
        (ohlcData.drop
          (ohlcData.length - timeframeWindow tf ohlcData.length)).length) := by
      rw [hslice]
      omega
    simp only [calculateSupertrendForTimeframes]
    rw [if_neg (by omega), if_neg hlt]

/-- Witness for the amended C5 at sixteen bars and the 45M timeframe. -/
theorem orchestrator_window_policy_witness :
    (wideBars.drop
        (wideBars.length -
          timeframeWindow Timeframe.tf45M wideBars.length)).length =
      timeframeWindow Timeframe.tf45M wideBars.length ∧
    ((timeframeConfig Timeframe.tf45M).atrPeriod + 1 ≤
        timeframeWindow Timeframe.tf45M wideBars.length →
      ∃ results,
        calculateSupertrend
          (wideBars.drop
            (wideBars.length -
              timeframeWindow Timeframe.tf45M wideBars.length))
          (timeframeConfig Timeframe.tf45M) = Except.ok results ∧
        calculateSupertrendForTimeframes wideBars Timeframe.tf45M =
          results.getLast? ∧
        (calculateSupertrendForTimeframes wideBars Timeframe.tf45M).isSome =
          true) ∧
    (timeframeWindow Timeframe.tf45M wideBars.length <
        (timeframeConfig Timeframe.tf45M).atrPeriod + 1 →
      calculateSupertrendForTimeframes wideBars Timeframe.tf45M = none) :=
  orchestrator_window_policy wideBars (by decide) Timeframe.tf45M

/-- Counterexample to claim C8 as stated.  `invalidBars` contains a bar
whose high is below its low; `validateOHLCData` detects this, yet
`calculateSupertrend` does not reject the sequence: it succeeds and
produces band values computed from the invalid bar. -/
theorem invalid_bars_not_rejected :
    validateOHLCData invalidBars = false ∧
    (calculateSupertrend invalidBars configHalf).isOk = true ∧
    (supertrendOutput invalidBars configHalf).length = 2 :=
  of_decide_eq_true (by with_unfolding_all rfl)

/-- Claim C8, amended: the engine performs no bar validation before
computation.  `calculateSupertrend` succeeds on any sequence meeting the
length precondition even when `validateOHLCData` reports the data invalid;
the validation predicate exists in the library but is never invoked by the
computation (nor by any caller in the repository). -/
theorem supertrend_accepts_invalid_bars (ohlcData : List OHLCData)
    (config : SupertrendConfig)
    (_hbad : validateOHLCData ohlcData = false)
    (hlen : config.atrPeriod + 1 ≤ ohlcData.length) :
    ∃ results, calculateSupertrend ohlcData config = Except.ok results :=
  ⟨_, calculateSupertrend_ok ohlcData config hlen⟩

/-- Witness for the amended C8 at the concrete invalid sequence. -/
theorem supertrend_accepts_invalid_bars_witness :
    ∃ results, calculateSupertrend invalidBars configHalf =
      Except.ok results :=
  supertrend_accepts_invalid_bars invalidBars configHalf
    (of_decide_eq_true (by with_unfolding_all rfl)) (by decide)

/-- Claim C10: every bar produced by `convertPricesToOHLC` from a list of
non-negative prices satisfies the validity predicate `validateOHLCData`
(the high `price * 1.01` dominates open, close and the low `price * 0.99`,
and the fixed volume is non-negative). -/
theorem prices_to_ohlc_valid (prices : List ℚ) (h : ∀ p ∈ prices, 0 ≤ p) :
    validateOHLCData (convertPricesToOHLC prices) = true := by
  rw [validateOHLCData, List.all_eq_true]
  intro candle hc
  rw [convertPricesToOHLC, List.mem_map] at hc
  obtain ⟨p, hp, rfl⟩ := hc
  have h0 := h p hp
  simp only [Bool.and_eq_true, decide_eq_true_eq]
  refine ⟨⟨⟨⟨⟨?_, ?_⟩, ?_⟩, ?_⟩, ?_⟩, ?_⟩ <;> linarith

/-- Witness for C10 at a concrete non-negative price list. -/
theorem prices_to_ohlc_valid_witness :
    validateOHLCData (convertPricesToOHLC [1, 2, 0, 5 / 2]) = true :=
  prices_to_ohlc_valid [1, 2, 0, 5 / 2]
    (by intro p hp; fin_cases hp <;> norm_num)

end TradeproScanner
